import Mathlib

/-!
# Verification of `tools/image2image.py` (doubao-image-and-video-generator)

A shallow embedding of the single tool class `Image2ImageTool` of the
repository.  Bytes are modelled as `List Nat` (each entry `< 256`), the
messages produced by the host primitives `create_text_message`,
`create_image_message` and `create_json_message` as an inductive `Msg`,
and the generator `_invoke` as a pure function from its inputs (tool
parameters, the behaviour of the environment probes for each image file,
and the streamed event list) to the list of observable actions.

Modelling conventions, stated once here:

* Python byte strings are `List Nat`; the numeric sizes that the code
  formats as `f"{len(..)/1024:.2f}KB"` are rendered as the raw byte count
  (no claim depends on the digits of a size report).
* The Python `repr` of an SDK event / error object that is interpolated
  into messages is rendered by the simple functions `errorStr` / `eventStr`.
* `event.error.code.equal("InternalServiceError")` is modelled as exact
  string equality of the code, following the spec's design note on this
  comparison (the SDK's error-code type is out of scope).
* The environment (network, attribute access, filesystem) is part of the
  input: an `ImageFile` record says what each retrieval probe of the code
  would observe for this file (bytes, or the exception it would raise).
-/

/-! ## Base64 (embedding of `base64.b64encode`, used by `_encode_image`) -/

/-- The standard base64 alphabet used by Python's `base64.b64encode`. -/
def b64Alphabet : List Char :=
  ['A','B','C','D','E','F','G','H','I','J','K','L','M',
   'N','O','P','Q','R','S','T','U','V','W','X','Y','Z',
   'a','b','c','d','e','f','g','h','i','j','k','l','m',
   'n','o','p','q','r','s','t','u','v','w','x','y','z',
   '0','1','2','3','4','5','6','7','8','9','+','/']

/-- The alphabet character of a sextet value. -/
def b64Char (n : Nat) : Char := b64Alphabet.getD n 'A'

/-- The sextet value of an alphabet character. -/
def b64Index (c : Char) : Nat := b64Alphabet.indexOf c

/-- Standard base64 encoding of a byte list, three bytes to four
characters, with `=` padding, exactly as `base64.b64encode` produces. -/
def b64encodeBytes : List Nat → List Char
  | [] => []
  | [a] => [b64Char (a / 4), b64Char (a % 4 * 16), '=', '=']
  | [a, b] => [b64Char (a / 4), b64Char (a % 4 * 16 + b / 16), b64Char (b % 16 * 4), '=']
  | a :: b :: c :: rest =>
      b64Char (a / 4) :: b64Char (a % 4 * 16 + b / 16) ::
      b64Char (b % 16 * 4 + c / 64) :: b64Char (c % 64) :: b64encodeBytes rest

/-- Standard base64 decoding, the inverse transformation, used to state
the round-trip property of the spec. -/
def b64decodeChars : List Char → List Nat
  | c1 :: c2 :: c3 :: c4 :: rest =>
      if c3 = '=' then [b64Index c1 * 4 + b64Index c2 / 16]
      else if c4 = '=' then
        [b64Index c1 * 4 + b64Index c2 / 16, b64Index c2 % 16 * 16 + b64Index c3 / 4]
      else
        (b64Index c1 * 4 + b64Index c2 / 16) ::
        (b64Index c2 % 16 * 16 + b64Index c3 / 4) ::
        (b64Index c3 % 4 * 64 + b64Index c4) :: b64decodeChars rest
  | _ => []

theorem b64Index_b64Char : ∀ n < 64, b64Index (b64Char n) = n := by decide

theorem b64Char_ne_pad : ∀ n < 64, b64Char n ≠ '=' := by decide

/-- Decoding inverts encoding on every valid byte list. -/
theorem b64_roundtrip : ∀ l : List Nat, (∀ x ∈ l, x < 256) →
    b64decodeChars (b64encodeBytes l) = l
  | [], _ => rfl
  | [a], h => by
      have ha : a < 256 := h a (by simp)
      have e1 : b64Index (b64Char (a / 4)) = a / 4 := b64Index_b64Char _ (by omega)
      have e2 : b64Index (b64Char (a % 4 * 16)) = a % 4 * 16 := b64Index_b64Char _ (by omega)
      simp [b64encodeBytes, b64decodeChars, e1, e2]
      omega
  | [a, b], h => by
      have ha : a < 256 := h a (by simp)
      have hb : b < 256 := h b (by simp)
      have e1 : b64Index (b64Char (a / 4)) = a / 4 := b64Index_b64Char _ (by omega)
      have e2 : b64Index (b64Char (a % 4 * 16 + b / 16)) = a % 4 * 16 + b / 16 :=
        b64Index_b64Char _ (by omega)
      have e3 : b64Index (b64Char (b % 16 * 4)) = b % 16 * 4 := b64Index_b64Char _ (by omega)
      have n3 : b64Char (b % 16 * 4) ≠ '=' := b64Char_ne_pad _ (by omega)
      simp [b64encodeBytes, b64decodeChars, e1, e2, e3, n3]
      omega
  | a :: b :: c :: d :: rest, h => by
      have ha : a < 256 := h a (by simp)
      have hb : b < 256 := h b (by simp)
      have hc : c < 256 := h c (by simp)
      have ih := b64_roundtrip (d :: rest) (fun x hx => h x (by simp at hx ⊢; tauto))
      have e1 : b64Index (b64Char (a / 4)) = a / 4 := b64Index_b64Char _ (by omega)
      have e2 : b64Index (b64Char (a % 4 * 16 + b / 16)) = a % 4 * 16 + b / 16 :=
        b64Index_b64Char _ (by omega)
      have e3 : b64Index (b64Char (b % 16 * 4 + c / 64)) = b % 16 * 4 + c / 64 :=
        b64Index_b64Char _ (by omega)
      have e4 : b64Index (b64Char (c % 64)) = c % 64 := b64Index_b64Char _ (by omega)
      have n3 : b64Char (b % 16 * 4 + c / 64) ≠ '=' := b64Char_ne_pad _ (by omega)
      have n4 : b64Char (c % 64) ≠ '=' := b64Char_ne_pad _ (by omega)
      simp [b64encodeBytes, b64decodeChars, e1, e2, e3, e4, n3, n4, ih]
      omega
  | [a, b, c], h => by
      have ha : a < 256 := h a (by simp)
      have hb : b < 256 := h b (by simp)
      have hc : c < 256 := h c (by simp)
      have e1 : b64Index (b64Char (a / 4)) = a / 4 := b64Index_b64Char _ (by omega)
      have e2 : b64Index (b64Char (a % 4 * 16 + b / 16)) = a % 4 * 16 + b / 16 :=
        b64Index_b64Char _ (by omega)
      have e3 : b64Index (b64Char (b % 16 * 4 + c / 64)) = b % 16 * 4 + c / 64 :=
        b64Index_b64Char _ (by omega)
      have e4 : b64Index (b64Char (c % 64)) = c % 64 := b64Index_b64Char _ (by omega)
      have n3 : b64Char (b % 16 * 4 + c / 64) ≠ '=' := b64Char_ne_pad _ (by omega)
      have n4 : b64Char (c % 64) ≠ '=' := b64Char_ne_pad _ (by omega)
      simp [b64encodeBytes, b64decodeChars, e1, e2, e3, e4, n3, n4]
      omega

/-! ## Data model

Events of the Ark stream (`images_stream_response`), messages of the
host, and the environment-indexed description of one entry of
`tool_parameters["image"]`. -/

/-- The error object attached to a stream event (`event.error`), with its
`code` string. -/
structure ArkError where
  code : String
deriving DecidableEq

/-- One streamed generation event.  `type` is the tag string the code
compares against; `error`, `url`, `usage` are the optional fields the
loop reads; `image_index` is interpolated into notices. -/
structure Event where
  type : String
  error : Option ArkError
  url : Option String
  image_index : Nat
  usage : Option String
deriving DecidableEq

/-- A message handed to the host: `create_text_message`,
`create_image_message` (carrying `event.url`, possibly `None`), or
`create_json_message` (carrying `images_info` and `usage`). -/
inductive Msg where
  | text : String → Msg
  | image : Option String → Msg
  | json : List Event → Option String → Msg
deriving DecidableEq

/-- Result of a probe (attribute access / `read()` / HTTP GET) that may
raise: the bytes obtained, or the exception message raised. -/
inductive PyRes where
  | ok : List Nat → PyRes
  | exn : String → PyRes
deriving DecidableEq

/-- Result of an `open(...)` + `read()` step.  The code catches only
`(TypeError, IOError)` there, so other exception classes (for example a
`ValueError` from a path with an embedded NUL byte) are distinguished:
they escape to the per-file handler at the bottom of the loop. -/
inductive OpenRes where
  | ok : List Nat → OpenRes
  | exnCaught : String → OpenRes
  | exnOther : String → OpenRes
deriving DecidableEq

/-- One entry of `tool_parameters["image"]`, together with what each of
the five retrieval probes of the code would observe for it:
`url` is the `url` attribute (`none` when absent or `None`); `download`
is what `requests.get(url)` would yield; `blob` / `read` are the
blob-attribute and `read()` probes (`none` when the attribute is absent);
`strPath` is `some p` when the object is the string `p` itself, with
`strOpen` the result of `open(p)`; `path` is the cached-path attribute
with `pathOpen` the result of opening it. -/
structure ImageFile where
  url : Option String
  download : PyRes
  blob : Option PyRes
  read : Option PyRes
  strPath : Option String
  strOpen : OpenRes
  path : Option String
  pathOpen : OpenRes
deriving DecidableEq

/-- Python truthiness of an optional string (`None` and `""` are falsy). -/
def truthy : Option String → Bool
  | none => false
  | some s => if s = "" then false else true

/-! ## Message texts (lines 65–131 and 140–181 of the source; numeric
sizes are rendered as raw byte counts, `repr` of objects via the
`errorStr` / `eventStr` helpers). -/

def urlFetchText (u : String) : String := "正在从URL获取图片: " ++ u.take 30 ++ "..."

def urlOkText (n : Nat) : String := "成功下载图片: 大小=" ++ toString n ++ "B"

def urlFailText (e : String) : String := "从URL下载图片失败: " ++ e

def blobOkText (n : Nat) : String := "从blob属性获取文件数据: 大小=" ++ toString n ++ "B"

def blobFailText (e : String) : String := "获取blob属性失败: " ++ e

def readOkText : String := "从可读对象获取文件数据"

def readFailText (e : String) : String := "从read方法获取文件数据失败: " ++ e

def strOkText (p : String) (n : Nat) : String :=
  "从文件路径获取文件数据: " ++ p ++ ", 大小=" ++ toString n ++ "B"

def strFailText (e : String) : String := "从文件路径获取文件数据失败: " ++ e

def pathOkText (p : String) (n : Nat) : String :=
  "从本地缓存路径获取文件数据: " ++ p ++ ", 大小=" ++ toString n ++ "B"

def pathFailText (e : String) : String := "从本地缓存路径获取文件数据失败: " ++ e

def noDataText : String := "无法获取图片数据。请尝试重新上传图片或使用较小的图片文件"

def outerFailText (e : String) : String := "处理图片文件失败: " ++ e

/-- Rendering of `event.error` inside an f-string. -/
def errorStr : Option ArkError → String
  | none => "None"
  | some err => err.code

/-- Rendering of a whole `event` inside an f-string. -/
def eventStr (e : Event) : String := e.type ++ "#" ++ toString e.image_index

def pfWarnText (e : Event) : String :=
  "image_generation.partial_failed. 部分图片生成失败, 错误信息: " ++ errorStr e.error

def pfFatalText (e : Event) : String :=
  "InternalServiceError 图片生成失败, 错误信息: " ++ errorStr e.error

def noticeText (e : Event) : String :=
  "第" ++ toString e.image_index ++
  "张图片生成完成。该链接将在生成后 24 小时内失效，请务必及时保存图像。" ++ eventStr e

/-! ## Image resolution (lines 56–115 of the source)

The five retrieval stages, in the order the code tries them.  Each
stage function describes the behaviour of the remaining code once
`file_content` is still `None` when control reaches that stage.  The
outcome `none` means the generator executes `return` (the request
aborts); `some content` means `file_content` is set to `content`
(possibly empty bytes — the code only tests `is None`). -/

/-- Lines 104–115: the cached-path attribute stage, then the
all-methods-failed message. -/
def tryPath (f : ImageFile) : List Msg × Option (List Nat) :=
  match f.path with
  | none => ([Msg.text noDataText], none)
  | some p =>
    match f.pathOpen with
    | .ok b => ([Msg.text (pathOkText p b.length)], some b)
    | .exnCaught e => ([Msg.text (pathFailText e), Msg.text noDataText], none)
    | .exnOther e => ([Msg.text (outerFailText e)], none)

/-- Lines 95–101: the filesystem-path-string stage. -/
def tryStrPath (f : ImageFile) : List Msg × Option (List Nat) :=
  match f.strPath with
  | none => tryPath f
  | some p =>
    match f.strOpen with
    | .ok b => ([Msg.text (strOkText p b.length)], some b)
    | .exnCaught e => (Msg.text (strFailText e) :: (tryPath f).1, (tryPath f).2)
    | .exnOther e => ([Msg.text (outerFailText e)], none)

/-- Lines 84–92: the `read()` stage. -/
def tryRead (f : ImageFile) : List Msg × Option (List Nat) :=
  match f.read with
  | none => tryStrPath f
  | some (.ok b) => ([Msg.text readOkText], some b)
  | some (.exn e) => (Msg.text (readFailText e) :: (tryStrPath f).1, (tryStrPath f).2)

/-- Lines 76–81: the blob-attribute stage. -/
def tryBlob (f : ImageFile) : List Msg × Option (List Nat) :=
  match f.blob with
  | none => tryRead f
  | some (.ok b) => ([Msg.text (blobOkText b.length)], some b)
  | some (.exn e) => (Msg.text (blobFailText e) :: (tryRead f).1, (tryRead f).2)

/-- Lines 62–115: resolve the bytes of one image file.  A truthy `url`
attribute is tried first; an exception there yields a failure message
and `return` without trying the remaining methods. -/
def resolveFile (f : ImageFile) : List Msg × Option (List Nat) :=
  match f.url with
  | some u =>
    if u = "" then tryBlob f
    else
      match f.download with
      | .ok b => ([Msg.text (urlFetchText u), Msg.text (urlOkText b.length)], some b)
      | .exn e => ([Msg.text (urlFetchText u), Msg.text (urlFailText e)], none)
  | none => tryBlob f

/-- Lines 15–27: `_encode_image`; returns the base64 text and the debug
report.  For byte input the `except` branch is unreachable, so the
embedding is total. -/
def encode_image (file_data : List Nat) : String × String :=
  (String.mk (b64encodeBytes file_data),
   "图片编码完成: 原始大小=" ++ toString file_data.length ++ "B, 编码后大小=" ++
     toString (b64encodeBytes file_data).length ++ "B")

/-- Line 123: the `data:` URI built from the encoded image. -/
def dataUrl (b : List Nat) : String := "data:image/jpeg;base64," ++ (encode_image b).1

/-- Lines 56–127: the whole per-file loop, producing the emitted
messages and either the `data:` URIs of every file (in order) or `none`
when the generator returned early. -/
def processFiles : List ImageFile → List Msg × Option (List String)
  | [] => ([], some [])
  | f :: rest =>
    match resolveFile f with
    | (ms, none) => (ms, none)
    | (ms, some b) =>
      match processFiles rest with
      | (ms2, none) => (ms ++ Msg.text (encode_image b).2 :: ms2, none)
      | (ms2, some urls) => (ms ++ Msg.text (encode_image b).2 :: ms2, some (dataUrl b :: urls))

/-! ## Event-stream consumption (lines 155–181 of the source) -/

/-- Lines 158–181: the event loop.  `acc` is the mutable `images_info`
list.  The function returns the messages yielded from the loop onward;
an `InternalServiceError` code on a `partial_failed` event executes
`return`, ending the whole generator. -/
def processEvents : List (Option Event) → List Event → List Msg
  | [], _ => []
  | none :: rest, acc => processEvents rest acc
  | some e :: rest, acc =>
    if e.type = "image_generation.partial_failed" then
      Msg.text (pfWarnText e) ::
        (match e.error with
         | some err =>
           if err.code = "InternalServiceError" then [Msg.text (pfFatalText e)]
           else processEvents rest acc
         | none => processEvents rest acc)
    else if e.type = "image_generation.partial_succeeded" then
      if e.error.isNone && truthy e.url then
        Msg.text (noticeText e) :: Msg.image e.url :: processEvents rest (acc ++ [e])
      else processEvents rest acc
    else if e.type = "image_generation.completed" then
      if e.error.isNone then
        Msg.text "图片生成完成" :: Msg.json acc e.usage :: processEvents rest acc
      else processEvents rest acc
    else if e.type = "image_generation.partial_image" then
      Msg.text (noticeText e) :: Msg.image e.url :: processEvents rest (acc ++ [e])
    else processEvents rest acc

/-- The `images_info` accumulator after consuming a list of events (used
to split streams at an event; meaningful for prefixes that contain no
fatal `partial_failed` event). -/
def accAfter : List (Option Event) → List Event → List Event
  | [], acc => acc
  | none :: rest, acc => accAfter rest acc
  | some e :: rest, acc =>
    if e.type = "image_generation.partial_failed" then accAfter rest acc
    else if e.type = "image_generation.partial_succeeded" then
      if e.error.isNone && truthy e.url then accAfter rest (acc ++ [e])
      else accAfter rest acc
    else if e.type = "image_generation.completed" then accAfter rest acc
    else if e.type = "image_generation.partial_image" then accAfter rest (acc ++ [e])
    else accAfter rest acc

/-- A `partial_failed` event whose error code is `InternalServiceError`:
the loop yields its two messages and then returns. -/
def isFatalPF : Option Event → Bool
  | none => false
  | some e =>
    if e.type = "image_generation.partial_failed" then
      match e.error with
      | some err => if err.code = "InternalServiceError" then true else false
      | none => false
    else false

/-- A `completed` event with no error: the branch that yields the final
JSON message. -/
def isOkCompleted : Option Event → Bool
  | none => false
  | some e => if e.type = "image_generation.completed" then e.error.isNone else false

/-- Whether a message is the final JSON message. -/
def isJsonMsg : Msg → Bool
  | .json _ _ => true
  | _ => false

/-! ## The full generator `_invoke` (lines 29–185 of the source) -/

/-- `tool_parameters`, as read at lines 50 and 134–137. -/
structure ToolParams where
  image : Option (List ImageFile)
  prompt : Option String
  model : Option String
  image_size : Option String
  output_image_num : Option Nat
deriving DecidableEq

/-- The argument record of the `client.images.generate(...)` call at
lines 143–153, constant fields included. -/
structure ApiRequest where
  model : Option String
  prompt : Option String
  image : Option (List String)
  size : Option String
  sequential_image_generation : String
  max_images : Option Nat
  stream : Bool
  response_format : String
  watermark : Bool
deriving DecidableEq

/-- An externally observable action of `_invoke`: a message yielded to
the host, or the one streaming call to the remote generation API. -/
inductive ToolAction where
  | msg : Msg → ToolAction
  | apiCall : ApiRequest → ToolAction
deriving DecidableEq

/-- Rendering of an optional string inside an f-string (`None` for
`Python None`). -/
def optStr : Option String → String
  | none => "None"
  | some s => s

/-- The request record built at lines 143–153. -/
def mkRequest (p : ToolParams) (imgs : Option (List String)) : ApiRequest :=
  { model := p.model, prompt := p.prompt, image := imgs, size := p.image_size,
    sequential_image_generation := "auto", max_images := p.output_image_num,
    stream := true, response_format := "url", watermark := false }

/-- Lines 139–181: the generation phase — two status texts, the API
call, the waiting text, then the event loop started with an empty
`images_info`. -/
def genPhase (p : ToolParams) (imgs : Option (List String)) (events : List (Option Event)) :
    List ToolAction :=
  ToolAction.msg (Msg.text "准备生成图片...") ::
  ToolAction.msg (Msg.text ("提示词: " ++ optStr p.prompt)) ::
  ToolAction.apiCall (mkRequest p imgs) ::
  ToolAction.msg (Msg.text "正在等待图片生成...") ::
  (processEvents events []).map ToolAction.msg

/-- Lines 50–181: the whole `_invoke` generator.  A falsy `image`
parameter (absent or the empty list) sets `images_data = None`;
otherwise every file is resolved and encoded first, aborting the request
on the first failure. -/
def invoke (p : ToolParams) (events : List (Option Event)) : List ToolAction :=
  match p.image with
  | none => genPhase p none events
  | some [] => genPhase p none events
  | some (f :: rest) =>
    match processFiles (f :: rest) with
    | (ms, none) => ms.map ToolAction.msg
    | (ms, some urls) => ms.map ToolAction.msg ++ genPhase p (some urls) events

/-! ## Helper lemmas about the event loop -/

/-- Characterization of a fatal `partial_failed` event. -/
theorem isFatalPF_eq_true (e : Event) :
    isFatalPF (some e) = true ↔
      e.type = "image_generation.partial_failed" ∧
        e.error = some ⟨"InternalServiceError"⟩ := by
  rcases e with ⟨t, err, u, i, us⟩
  rcases err with _ | ⟨⟨c⟩⟩ <;>
    by_cases ht : t = "image_generation.partial_failed" <;>
      simp [isFatalPF, ht, ArkError.mk.injEq]

/-- Characterization of an error-free `completed` event. -/
theorem isOkCompleted_eq_true (e : Event) :
    isOkCompleted (some e) = true ↔
      e.type = "image_generation.completed" ∧ e.error = none := by
  rcases e with ⟨t, err, u, i, us⟩
  by_cases ht : t = "image_generation.completed" <;>
    cases err <;> simp [isOkCompleted, ht]

/-- Splitting the loop at a prefix that contains no fatal
`partial_failed` event. -/
theorem processEvents_append : ∀ (pre rest : List (Option Event)) (acc : List Event),
    (∀ x ∈ pre, isFatalPF x = false) →
    processEvents (pre ++ rest) acc
      = processEvents pre acc ++ processEvents rest (accAfter pre acc)
  | [], rest, acc, _ => by simp [processEvents, accAfter]
  | none :: tl, rest, acc, h => by
      have htl : ∀ x ∈ tl, isFatalPF x = false :=
        fun x hx => h x (List.mem_cons_of_mem _ hx)
      simpa [processEvents, accAfter] using processEvents_append tl rest acc htl
  | some e :: tl, rest, acc, h => by
      have htl : ∀ x ∈ tl, isFatalPF x = false :=
        fun x hx => h x (List.mem_cons_of_mem _ hx)
      have hne : isFatalPF (some e) = false := h _ (List.mem_cons_self _ _)
      by_cases h1 : e.type = "image_generation.partial_failed"
      · cases herr : e.error with
        | none =>
            simp [processEvents, accAfter, h1, herr,
              processEvents_append tl rest acc htl]
        | some err =>
            have hcode : ¬err.code = "InternalServiceError" := by
              intro hc
              simp [isFatalPF, h1, herr, hc] at hne
            simp [processEvents, accAfter, h1, herr, hcode,
              processEvents_append tl rest acc htl]
      · by_cases h2 : e.type = "image_generation.partial_succeeded"
        · cases h3 : (e.error.isNone && truthy e.url) with
          | true =>
              simp [processEvents, accAfter, h1, h2, h3,
                processEvents_append tl rest (acc ++ [e]) htl]
          | false =>
              simp [processEvents, accAfter, h1, h2, h3,
                processEvents_append tl rest acc htl]
        · by_cases h4 : e.type = "image_generation.completed"
          · cases h5 : e.error.isNone with
            | true =>
                simp [processEvents, accAfter, h1, h2, h4, h5,
                  processEvents_append tl rest acc htl]
            | false =>
                simp [processEvents, accAfter, h1, h2, h4, h5,
                  processEvents_append tl rest acc htl]
          · by_cases h6 : e.type = "image_generation.partial_image"
            · simp [processEvents, accAfter, h1, h2, h4, h6,
                processEvents_append tl rest (acc ++ [e]) htl]
            · simp [processEvents, accAfter, h1, h2, h4, h6,
                processEvents_append tl rest acc htl]

/-- A stream without an error-free `completed` event never yields the
JSON message. -/
theorem processEvents_json_free : ∀ (s : List (Option Event)) (acc : List Event),
    (∀ x ∈ s, isOkCompleted x = false) →
    ∀ (info : List Event) (u : Option String), Msg.json info u ∉ processEvents s acc
  | [], _, _, info, u => by simp [processEvents]
  | none :: tl, acc, h, info, u => by
      simpa [processEvents] using
        processEvents_json_free tl acc (fun x hx => h x (List.mem_cons_of_mem _ hx)) info u
  | some e :: tl, acc, h, info, u => by
      have htl : ∀ x ∈ tl, isOkCompleted x = false :=
        fun x hx => h x (List.mem_cons_of_mem _ hx)
      have hco : isOkCompleted (some e) = false := h _ (List.mem_cons_self _ _)
      by_cases h1 : e.type = "image_generation.partial_failed"
      · cases herr : e.error with
        | none =>
            simpa [processEvents, h1, herr] using
              processEvents_json_free tl acc htl info u
        | some err =>
            by_cases hc2 : err.code = "InternalServiceError"
            · simp [processEvents, h1, herr, hc2]
            · simpa [processEvents, h1, herr, hc2] using
                processEvents_json_free tl acc htl info u
      · by_cases h2 : e.type = "image_generation.partial_succeeded"
        · cases h3 : (e.error.isNone && truthy e.url) with
          | true =>
              simpa [processEvents, h1, h2, h3] using
                processEvents_json_free tl (acc ++ [e]) htl info u
          | false =>
              simpa [processEvents, h1, h2, h3] using
                processEvents_json_free tl acc htl info u
        · by_cases h4 : e.type = "image_generation.completed"
          · have herrf : e.error.isNone = false := by
              simpa [isOkCompleted, h4] using hco
            simpa [processEvents, h1, h2, h4, herrf] using
              processEvents_json_free tl acc htl info u
          · by_cases h5 : e.type = "image_generation.partial_image"
            · simpa [processEvents, h1, h2, h4, h5] using
                processEvents_json_free tl (acc ++ [e]) htl info u
            · simpa [processEvents, h1, h2, h4, h5] using
                processEvents_json_free tl acc htl info u

/-- In a stream without fatal `partial_failed` events, the loop yields
exactly one JSON message per error-free `completed` event. -/
theorem processEvents_json_count : ∀ (s : List (Option Event)) (acc : List Event),
    (∀ x ∈ s, isFatalPF x = false) →
    (processEvents s acc).countP isJsonMsg = s.countP isOkCompleted
  | [], _, _ => by simp [processEvents]
  | none :: tl, acc, h => by
      have htl : ∀ x ∈ tl, isFatalPF x = false :=
        fun x hx => h x (List.mem_cons_of_mem _ hx)
      simpa [processEvents, isOkCompleted, List.countP_cons] using
        processEvents_json_count tl acc htl
  | some e :: tl, acc, h => by
      have htl : ∀ x ∈ tl, isFatalPF x = false :=
        fun x hx => h x (List.mem_cons_of_mem _ hx)
      have hne : isFatalPF (some e) = false := h _ (List.mem_cons_self _ _)
      by_cases h1 : e.type = "image_generation.partial_failed"
      · cases herr : e.error with
        | none =>
            simpa [processEvents, isOkCompleted, isJsonMsg, List.countP_cons, h1, herr] using
              processEvents_json_count tl acc htl
        | some err =>
            have hcode : ¬err.code = "InternalServiceError" := by
              intro hc
              simp [isFatalPF, h1, herr, hc] at hne
            simpa [processEvents, isOkCompleted, isJsonMsg, List.countP_cons, h1, herr,
              hcode] using processEvents_json_count tl acc htl
      · by_cases h2 : e.type = "image_generation.partial_succeeded"
        · cases h3 : (e.error.isNone && truthy e.url) with
          | true =>
              simpa [processEvents, isOkCompleted, isJsonMsg, List.countP_cons, h1, h2,
                h3] using processEvents_json_count tl (acc ++ [e]) htl
          | false =>
              simpa [processEvents, isOkCompleted, isJsonMsg, List.countP_cons, h1, h2,
                h3] using processEvents_json_count tl acc htl
        · by_cases h4 : e.type = "image_generation.completed"
          · cases h5 : e.error.isNone with
            | true =>
                simpa [processEvents, isOkCompleted, isJsonMsg, List.countP_cons, h1, h2,
                  h4, h5] using processEvents_json_count tl acc htl
            | false =>
                simpa [processEvents, isOkCompleted, isJsonMsg, List.countP_cons, h1, h2,
                  h4, h5] using processEvents_json_count tl acc htl
          · by_cases h6 : e.type = "image_generation.partial_image"
            · simpa [processEvents, isOkCompleted, isJsonMsg, List.countP_cons, h1, h2, h4,
                h6] using processEvents_json_count tl (acc ++ [e]) htl
            · simpa [processEvents, isOkCompleted, isJsonMsg, List.countP_cons, h1, h2, h4,
                h6] using processEvents_json_count tl acc htl

/-! ## Helper lemmas about image resolution -/

/-- `tryPath` reads only the `path` / `pathOpen` fields. -/
theorem tryPath_congr (f g : ImageFile) (hpa : f.path = g.path)
    (hpo : f.pathOpen = g.pathOpen) : tryPath f = tryPath g := by
  unfold tryPath
  rw [hpa, hpo]

/-- `tryStrPath` reads only the fields from `strPath` on. -/
theorem tryStrPath_congr (f g : ImageFile) (hsp : f.strPath = g.strPath)
    (hso : f.strOpen = g.strOpen) (hpa : f.path = g.path)
    (hpo : f.pathOpen = g.pathOpen) : tryStrPath f = tryStrPath g := by
  unfold tryStrPath
  rw [hsp, hso, tryPath_congr f g hpa hpo]

/-- `tryRead` reads only the fields from `read` on. -/
theorem tryRead_congr (f g : ImageFile) (hrd : f.read = g.read)
    (hsp : f.strPath = g.strPath) (hso : f.strOpen = g.strOpen)
    (hpa : f.path = g.path) (hpo : f.pathOpen = g.pathOpen) :
    tryRead f = tryRead g := by
  unfold tryRead
  rw [hrd, tryStrPath_congr f g hsp hso hpa hpo]

/-- When the `url` attribute is absent or falsy, `resolveFile` is the
blob-onward chain. -/
theorem resolveFile_not_url (f : ImageFile) (h : truthy f.url = false) :
    resolveFile f = tryBlob f := by
  cases hu : f.url with
  | none => simp [resolveFile, hu]
  | some u =>
    have hue : u = "" := by
      by_cases he : u = ""
      · exact he
      · simp [truthy, hu, he] at h
    simp [resolveFile, hu, hue]

/-- Every terminal branch of the resolution chain emits at least one
text message. -/
theorem tryPath_has_text (f : ImageFile) : ∃ s, Msg.text s ∈ (tryPath f).1 := by
  cases hp : f.path <;> cases hpo : f.pathOpen <;>
    simp [tryPath, hp, hpo]

theorem tryStrPath_has_text (f : ImageFile) : ∃ s, Msg.text s ∈ (tryStrPath f).1 := by
  cases hsp : f.strPath with
  | none => simpa [tryStrPath, hsp] using tryPath_has_text f
  | some p =>
    cases hso : f.strOpen with
    | ok b => simp [tryStrPath, hsp, hso]
    | exnCaught e =>
      obtain ⟨s, hs⟩ := tryPath_has_text f
      exact ⟨s, by simp [tryStrPath, hsp, hso]; right; exact hs⟩
    | exnOther e => simp [tryStrPath, hsp, hso]

theorem tryRead_has_text (f : ImageFile) : ∃ s, Msg.text s ∈ (tryRead f).1 := by
  cases hrd : f.read with
  | none => simpa [tryRead, hrd] using tryStrPath_has_text f
  | some r =>
    cases r with
    | ok b => simp [tryRead, hrd]
    | exn e =>
      obtain ⟨s, hs⟩ := tryStrPath_has_text f
      exact ⟨s, by simp [tryRead, hrd]; right; exact hs⟩

theorem tryBlob_has_text (f : ImageFile) : ∃ s, Msg.text s ∈ (tryBlob f).1 := by
  cases hb : f.blob with
  | none => simpa [tryBlob, hb] using tryRead_has_text f
  | some r =>
    cases r with
    | ok b => simp [tryBlob, hb]
    | exn e =>
      obtain ⟨s, hs⟩ := tryRead_has_text f
      exact ⟨s, by simp [tryBlob, hb]; right; exact hs⟩

theorem resolveFile_has_text (f : ImageFile) : ∃ s, Msg.text s ∈ (resolveFile f).1 := by
  cases hu : f.url with
  | none => simpa [resolveFile, hu] using tryBlob_has_text f
  | some u =>
    by_cases hue : u = ""
    · simpa [resolveFile, hu, hue] using tryBlob_has_text f
    · cases hd : f.download <;> simp [resolveFile, hu, hue, hd]

/-- A failed per-file loop still emitted at least one text message. -/
theorem processFiles_fail_text : ∀ (fs : List ImageFile) (ms : List Msg),
    processFiles fs = (ms, none) → ∃ s, Msg.text s ∈ ms
  | [], ms, h => by simp [processFiles] at h
  | f :: rest, ms, h => by
      cases hr : resolveFile f with
      | mk ms1 o =>
        cases o with
        | none =>
            simp [processFiles, hr] at h
            obtain ⟨s, hs⟩ := resolveFile_has_text f
            exact ⟨s, by rw [← h]; rw [hr] at hs; exact hs⟩
        | some b =>
            cases hrec : processFiles rest with
            | mk ms2 o2 =>
              cases o2 with
              | none =>
                  simp [processFiles, hr, hrec] at h
                  exact ⟨(encode_image b).2, by rw [← h]; simp⟩
              | some urls => simp [processFiles, hr, hrec] at h

/-- A successful per-file loop produces one `data:` URI per input
file. -/
theorem processFiles_length : ∀ (fs : List ImageFile) (ms : List Msg) (urls : List String),
    processFiles fs = (ms, some urls) → urls.length = fs.length
  | [], ms, urls, h => by simp [processFiles] at h; simp [h.2.symm]
  | f :: rest, ms, urls, h => by
      cases hr : resolveFile f with
      | mk ms1 o =>
        cases o with
        | none => simp [processFiles, hr] at h
        | some b =>
            cases hrec : processFiles rest with
            | mk ms2 o2 =>
              cases o2 with
              | none => simp [processFiles, hr, hrec] at h
              | some urls2 =>
                  simp [processFiles, hr, hrec] at h
                  have := processFiles_length rest ms2 urls2 hrec
                  simp [← h.2, this]

/-- Mapped message actions never contain the API call. -/
theorem apiCall_not_mem_map (r : ApiRequest) (ms : List Msg) :
    ToolAction.apiCall r ∉ ms.map ToolAction.msg := by
  simp [List.mem_map]

/-! ## Spec-side description of `resolveImage` (for the refinement
comparison of claim C5) -/

/-- Modelled from the spec: the outcome of the amended `resolveImage`
contract — the five methods are tried in the fixed priority order URL
download, blob attribute, `read()`, path string, cached path attribute,
stopping at the first one that yields a byte value (even empty); an
exception in the URL step, an uncaught (non-`TypeError`/`IOError`)
exception in one of the two path steps, or exhaustion of all methods
leaves no bytes (the request aborts). -/
def specPathOutcome (f : ImageFile) : Option (List Nat) :=
  match f.path with
  | none => none
  | some _ =>
    match f.pathOpen with
    | .ok b => some b
    | .exnCaught _ => none
    | .exnOther _ => none

/-- Modelled from the spec: the path-string method and everything after
it (see `specPathOutcome`). -/
def specStrOutcome (f : ImageFile) : Option (List Nat) :=
  match f.strPath with
  | none => specPathOutcome f
  | some _ =>
    match f.strOpen with
    | .ok b => some b
    | .exnCaught _ => specPathOutcome f
    | .exnOther _ => none

/-- Modelled from the spec: the `read()` method and everything after it. -/
def specReadOutcome (f : ImageFile) : Option (List Nat) :=
  match f.read with
  | some (.ok b) => some b
  | _ => specStrOutcome f

/-- Modelled from the spec: the blob method and everything after it. -/
def specBlobOutcome (f : ImageFile) : Option (List Nat) :=
  match f.blob with
  | some (.ok b) => some b
  | _ => specReadOutcome f

/-- Modelled from the spec: the whole amended `resolveImage` outcome. -/
def specResolveOutcome (f : ImageFile) : Option (List Nat) :=
  if truthy f.url then
    match f.download with
    | .ok b => some b
    | .exn _ => none
  else specBlobOutcome f

theorem tryPath_outcome (f : ImageFile) : (tryPath f).2 = specPathOutcome f := by
  cases hp : f.path <;> cases hpo : f.pathOpen <;>
    simp [tryPath, specPathOutcome, hp, hpo]

theorem tryStrPath_outcome (f : ImageFile) : (tryStrPath f).2 = specStrOutcome f := by
  cases hsp : f.strPath <;> cases hso : f.strOpen <;>
    simp [tryStrPath, specStrOutcome, hsp, hso, tryPath_outcome]

theorem tryRead_outcome (f : ImageFile) : (tryRead f).2 = specReadOutcome f := by
  cases hrd : f.read with
  | none => simp [tryRead, specReadOutcome, hrd, tryStrPath_outcome]
  | some r => cases r <;> simp [tryRead, specReadOutcome, hrd, tryStrPath_outcome]

theorem tryBlob_outcome (f : ImageFile) : (tryBlob f).2 = specBlobOutcome f := by
  cases hb : f.blob with
  | none => simp [tryBlob, specBlobOutcome, hb, tryRead_outcome]
  | some r => cases r <;> simp [tryBlob, specBlobOutcome, hb, tryRead_outcome]

/-! ## The claims -/

/-- C1: for the stream `[partial_succeeded(idx=0,url=U0,no error),
partial_succeeded(idx=1,url=U1,no error), completed(usage=X,no error)]`
the event loop emits, in order, a text notice and an image message for
`U0`, a text notice and an image message for `U1`, and one final JSON
message whose `images_info` holds exactly the two recorded events and
whose usage is `X` (plus the completion text the code prints before the
JSON message).  `U0`, `U1` are URLs, hence non-empty. -/
theorem C1_two_images_then_summary (U0 U1 : String) (hU0 : U0 ≠ "") (hU1 : U1 ≠ "")
    (X : Option String) :
    processEvents
        [some ⟨"image_generation.partial_succeeded", none, some U0, 0, none⟩,
         some ⟨"image_generation.partial_succeeded", none, some U1, 1, none⟩,
         some ⟨"image_generation.completed", none, none, 2, X⟩] []
      = [Msg.text (noticeText ⟨"image_generation.partial_succeeded", none, some U0, 0, none⟩),
         Msg.image (some U0),
         Msg.text (noticeText ⟨"image_generation.partial_succeeded", none, some U1, 1, none⟩),
         Msg.image (some U1),
         Msg.text "图片生成完成",
         Msg.json
           [⟨"image_generation.partial_succeeded", none, some U0, 0, none⟩,
            ⟨"image_generation.partial_succeeded", none, some U1, 1, none⟩] X] := by
  simp [processEvents, truthy, hU0, hU1]

/-- Witness for C1 at concrete URLs and usage. -/
theorem C1_two_images_then_summary_witness :
    processEvents
        [some ⟨"image_generation.partial_succeeded", none, some "http://a", 0, none⟩,
         some ⟨"image_generation.partial_succeeded", none, some "http://b", 1, none⟩,
         some ⟨"image_generation.completed", none, none, 2, some "usage"⟩] []
      = [Msg.text (noticeText ⟨"image_generation.partial_succeeded", none, some "http://a", 0, none⟩),
         Msg.image (some "http://a"),
         Msg.text (noticeText ⟨"image_generation.partial_succeeded", none, some "http://b", 1, none⟩),
         Msg.image (some "http://b"),
         Msg.text "图片生成完成",
         Msg.json
           [⟨"image_generation.partial_succeeded", none, some "http://a", 0, none⟩,
            ⟨"image_generation.partial_succeeded", none, some "http://b", 1, none⟩]
           (some "usage")] :=
  C1_two_images_then_summary "http://a" "http://b" (by decide) (by decide) (some "usage")

/-- Counterexample to C2 as stated: a stream that contains a fatal
`partial_failed` event can still have produced the final JSON message —
the loop does not stop at `completed`, so an error-free `completed`
event arriving before the fatal event has already yielded the JSON
message, contradicting "never emits a final JSON message". -/
theorem C2_internal_error_counterexample :
    isFatalPF
        (some ⟨"image_generation.partial_failed", some ⟨"InternalServiceError"⟩, none, 1, none⟩)
      = true
    ∧ (processEvents
          [some ⟨"image_generation.completed", none, none, 0, some "u"⟩,
           some ⟨"image_generation.partial_failed", some ⟨"InternalServiceError"⟩, none, 1, none⟩]
          []).countP isJsonMsg = 1 := by
  constructor <;> rfl

/-- C2 (amended): for every stream containing a `partial_failed` event
with error code `InternalServiceError` that is preceded by no fatal
`partial_failed` and no error-free `completed` event, the loop emits the
warning message and the fatal-error text message for that event and then
terminates — later events produce no messages, and no final JSON message
is ever emitted. -/
theorem C2_internal_error_terminates (pre post : List (Option Event)) (e : Event)
    (acc : List Event) (hfatal : isFatalPF (some e) = true)
    (hpre : ∀ x ∈ pre, isFatalPF x = false ∧ isOkCompleted x = false) :
    processEvents (pre ++ some e :: post) acc
      = processEvents pre acc ++ [Msg.text (pfWarnText e), Msg.text (pfFatalText e)]
    ∧ ∀ (info : List Event) (u : Option String),
        Msg.json info u ∉ processEvents (pre ++ some e :: post) acc := by
  obtain ⟨ht, herr⟩ := (isFatalPF_eq_true e).1 hfatal
  have hpre1 : ∀ x ∈ pre, isFatalPF x = false := fun x hx => (hpre x hx).1
  have hsplit := processEvents_append pre (some e :: post) acc hpre1
  have hstop : processEvents (some e :: post) (accAfter pre acc)
      = [Msg.text (pfWarnText e), Msg.text (pfFatalText e)] := by
    simp [processEvents, ht, herr]
  refine ⟨by rw [hsplit, hstop], ?_⟩
  intro info u hmem
  rw [hsplit, hstop] at hmem
  rcases List.mem_append.1 hmem with hm | hm
  · exact processEvents_json_free pre acc (fun x hx => (hpre x hx).2) info u hm
  · simp at hm

/-- Witness for C2 (amended): a succeeded image, then the fatal event,
then a `completed` event that is never reached. -/
theorem C2_internal_error_terminates_witness :
    processEvents
        [some ⟨"image_generation.partial_succeeded", none, some "http://u0", 0, none⟩,
         some ⟨"image_generation.partial_failed", some ⟨"InternalServiceError"⟩, none, 1, none⟩,
         some ⟨"image_generation.completed", none, none, 2, some "usg"⟩] []
      = processEvents
          [some ⟨"image_generation.partial_succeeded", none, some "http://u0", 0, none⟩] []
        ++ [Msg.text (pfWarnText
              ⟨"image_generation.partial_failed", some ⟨"InternalServiceError"⟩, none, 1, none⟩),
            Msg.text (pfFatalText
              ⟨"image_generation.partial_failed", some ⟨"InternalServiceError"⟩, none, 1, none⟩)]
    ∧ Msg.json [] (some "usg") ∉ processEvents
        [some ⟨"image_generation.partial_succeeded", none, some "http://u0", 0, none⟩,
         some ⟨"image_generation.partial_failed", some ⟨"InternalServiceError"⟩, none, 1, none⟩,
         some ⟨"image_generation.completed", none, none, 2, some "usg"⟩] [] := by
  have h := C2_internal_error_terminates
      [some ⟨"image_generation.partial_succeeded", none, some "http://u0", 0, none⟩]
      [some ⟨"image_generation.completed", none, none, 2, some "usg"⟩]
      ⟨"image_generation.partial_failed", some ⟨"InternalServiceError"⟩, none, 1, none⟩
      [] rfl (by decide)
  exact ⟨h.1, h.2 [] (some "usg")⟩

/-- Counterexample to C3 as stated: a `partial_failed` event with code
`OtherError` is followed later by an error-free `completed` event, yet
no JSON message is emitted, because a fatal `partial_failed` event in
between terminates the loop first. -/
theorem C3_other_error_counterexample :
    isOkCompleted (some ⟨"image_generation.completed", none, none, 2, some "usage"⟩) = true
    ∧ (processEvents
          [some ⟨"image_generation.partial_failed", some ⟨"OtherError"⟩, none, 0, none⟩,
           some ⟨"image_generation.partial_failed", some ⟨"InternalServiceError"⟩, none, 1, none⟩,
           some ⟨"image_generation.completed", none, none, 2, some "usage"⟩] []).countP
        isJsonMsg = 0 := by
  constructor <;> rfl

/-- C3 (amended): for every stream with a `partial_failed` event whose
code differs from `InternalServiceError`, followed later by an
error-free `completed` event, with no fatal `partial_failed` event at or
before the `completed` event, the loop emits the warning for the failed
event, keeps consuming, and emits the final JSON message for the
`completed` event. -/
theorem C3_other_error_continues (pre mid post : List (Option Event)) (e c : Event)
    (acc : List Event) (code : String)
    (het : e.type = "image_generation.partial_failed")
    (herr : e.error = some ⟨code⟩) (hcode : code ≠ "InternalServiceError")
    (hok : isOkCompleted (some c) = true)
    (hpre : ∀ x ∈ pre, isFatalPF x = false) (hmid : ∀ x ∈ mid, isFatalPF x = false) :
    Msg.text (pfWarnText e) ∈ processEvents (pre ++ some e :: (mid ++ some c :: post)) acc
    ∧ ∃ info, Msg.json info c.usage
        ∈ processEvents (pre ++ some e :: (mid ++ some c :: post)) acc := by
  obtain ⟨hct, hcerr⟩ := (isOkCompleted_eq_true c).1 hok
  have hsplit := processEvents_append pre (some e :: (mid ++ some c :: post)) acc hpre
  have hcont : processEvents (some e :: (mid ++ some c :: post)) (accAfter pre acc)
      = Msg.text (pfWarnText e)
        :: processEvents (mid ++ some c :: post) (accAfter pre acc) := by
    simp [processEvents, het, herr, hcode]
  have hsplit2 := processEvents_append mid (some c :: post) (accAfter pre acc) hmid
  have hdone : processEvents (some c :: post) (accAfter mid (accAfter pre acc))
      = Msg.text "图片生成完成"
        :: Msg.json (accAfter mid (accAfter pre acc)) c.usage
        :: processEvents post (accAfter mid (accAfter pre acc)) := by
    simp [processEvents, hct, hcerr]
  constructor
  · rw [hsplit, hcont]
    simp
  · refine ⟨accAfter mid (accAfter pre acc), ?_⟩
    rw [hsplit, hcont, hsplit2, hdone]
    simp

/-- Witness for C3 (amended): `[partial_failed(OtherError), completed]`
still produces the JSON message. -/
theorem C3_other_error_continues_witness :
    Msg.text (pfWarnText ⟨"image_generation.partial_failed", some ⟨"OtherError"⟩, none, 0, none⟩)
      ∈ processEvents
          [some ⟨"image_generation.partial_failed", some ⟨"OtherError"⟩, none, 0, none⟩,
           some ⟨"image_generation.completed", none, none, 1, some "usg"⟩] []
    ∧ ∃ info, Msg.json info (some "usg")
        ∈ processEvents
            [some ⟨"image_generation.partial_failed", some ⟨"OtherError"⟩, none, 0, none⟩,
             some ⟨"image_generation.completed", none, none, 1, some "usg"⟩] [] :=
  C3_other_error_continues [] [] []
    ⟨"image_generation.partial_failed", some ⟨"OtherError"⟩, none, 0, none⟩
    ⟨"image_generation.completed", none, none, 1, some "usg"⟩
    [] "OtherError" rfl rfl (by decide) rfl
    (by intro x hx; simp at hx) (by intro x hx; simp at hx)

/-- C4: the remote generation API is called only if every input image
was resolved and encoded: when the per-file loop fails, `_invoke` emits
exactly the failure messages (at least one text message among them) and
performs zero API calls; when it succeeds, the submitted image list has
one `data:` URI per input image (never a partial list). -/
theorem C4_no_api_call_on_failure (p : ToolParams) (events : List (Option Event))
    (fs : List ImageFile) (hp : p.image = some fs) :
    (∀ ms, processFiles fs = (ms, none) →
        invoke p events = ms.map ToolAction.msg
        ∧ (∃ s, ToolAction.msg (Msg.text s) ∈ invoke p events)
        ∧ ∀ r, ToolAction.apiCall r ∉ invoke p events)
    ∧ (∀ ms urls, processFiles fs = (ms, some urls) → urls.length = fs.length) := by
  constructor
  · intro ms hfail
    rcases fs with _ | ⟨f, rest⟩
    · simp [processFiles] at hfail
    · have hinv : invoke p events = ms.map ToolAction.msg := by
        simp [invoke, hp, hfail]
      obtain ⟨s, hs⟩ := processFiles_fail_text _ _ hfail
      refine ⟨hinv, ⟨s, ?_⟩, fun r => ?_⟩
      · rw [hinv]
        exact List.mem_map.2 ⟨Msg.text s, hs, rfl⟩
      · rw [hinv]
        exact apiCall_not_mem_map r ms
  · intro ms urls h
    exact processFiles_length fs ms urls h

/-- Witness for C4: one input image whose URL download raises a timeout
— one fetch notice, one failure message, no API call. -/
theorem C4_no_api_call_on_failure_witness :
    invoke
        ⟨some [⟨some "http://img.example/cat.png", .exn "ReadTimeout", none, none, none,
                .ok [], none, .ok []⟩],
         some "a cat", some "doubao-seedream", some "1024x1024", some 1⟩ []
      = [ToolAction.msg (Msg.text (urlFetchText "http://img.example/cat.png")),
         ToolAction.msg (Msg.text (urlFailText "ReadTimeout"))]
    ∧ ToolAction.apiCall
        (mkRequest
          ⟨some [⟨some "http://img.example/cat.png", .exn "ReadTimeout", none, none, none,
                  .ok [], none, .ok []⟩],
           some "a cat", some "doubao-seedream", some "1024x1024", some 1⟩ none)
        ∉ invoke
            ⟨some [⟨some "http://img.example/cat.png", .exn "ReadTimeout", none, none, none,
                    .ok [], none, .ok []⟩],
             some "a cat", some "doubao-seedream", some "1024x1024", some 1⟩ [] := by
  have h := (C4_no_api_call_on_failure
      ⟨some [⟨some "http://img.example/cat.png", .exn "ReadTimeout", none, none, none,
              .ok [], none, .ok []⟩],
       some "a cat", some "doubao-seedream", some "1024x1024", some 1⟩ []
      [⟨some "http://img.example/cat.png", .exn "ReadTimeout", none, none, none,
        .ok [], none, .ok []⟩] rfl).1
      [Msg.text (urlFetchText "http://img.example/cat.png"),
       Msg.text (urlFailText "ReadTimeout")] rfl
  exact ⟨h.1, h.2.2 _⟩

/-- Counterexample to C5 as stated: for a file whose blob access raises,
whose `read()` yields empty bytes and whose cached path holds non-empty
bytes, the claim demands an abort (a step threw) — and its
"first non-empty bytes" rule would otherwise pick the path bytes — but
the code continues past the blob exception and stops at the empty
`read()` result, proceeding with empty content and no abort. -/
theorem C5_resolve_order_counterexample :
    resolveFile
        ⟨none, .exn "unused", some (.exn "AttributeError"), some (.ok []), none, .ok [],
         some "/cache/img.png", .ok [1, 2, 3]⟩
      = ([Msg.text (blobFailText "AttributeError"), Msg.text readOkText], some []) := by
  rfl

/-- C5 (amended): `resolveFile` tries the five methods in the fixed
priority order and stops at the first one that yields a byte value,
even empty bytes; it aborts when the URL download raises, when an
uncaught exception escapes one of the two path steps, or when every
method is exhausted without bytes; a caught exception in the blob,
read, or path steps merely falls through to the next method — exactly
the outcome described by the spec-side `specResolveOutcome`. -/
theorem C5_resolve_outcome_characterization (f : ImageFile) :
    (resolveFile f).2 = specResolveOutcome f := by
  cases hu : f.url with
  | none => simp [resolveFile, specResolveOutcome, truthy, hu, tryBlob_outcome]
  | some u =>
    by_cases hue : u = ""
    · simp [resolveFile, specResolveOutcome, truthy, hu, hue, tryBlob_outcome]
    · cases hd : f.download <;>
        simp [resolveFile, specResolveOutcome, truthy, hu, hue, hd]

/-- C6: base64-decoding the text produced by `_encode_image` yields the
original bytes exactly. -/
theorem C6_base64_roundtrip (b : List Nat) (h : ∀ x ∈ b, x < 256) :
    b64decodeChars (encode_image b).1.toList = b := by
  have hmk : (encode_image b).1.toList = b64encodeBytes b := rfl
  rw [hmk]
  exact b64_roundtrip b h

/-- Witness for C6 on concrete bytes. -/
theorem C6_base64_roundtrip_witness :
    b64decodeChars (encode_image [72, 105, 33, 200]).1.toList = [72, 105, 33, 200] :=
  C6_base64_roundtrip [72, 105, 33, 200] (by decide)

/-- Counterexample to C7 as stated: the loop does not stop at a
`completed` event (the code has no `return` there), so a stream with two
error-free `completed` events yields the JSON message twice — "at most
once per invocation" fails, and the second `completed` event after the
first one still produces messages. -/
theorem C7_double_completed_counterexample :
    (processEvents
        [some ⟨"image_generation.completed", none, none, 0, some "u"⟩,
         some ⟨"image_generation.completed", none, none, 0, some "u"⟩] []).countP
      isJsonMsg = 2 := by
  rfl

/-- C7 (amended): in a stream without fatal `partial_failed` events the
loop emits exactly one JSON message per error-free `completed` event it
consumes — in particular exactly once when the stream holds exactly one
such event — but consumption does not end there: later events are still
processed. -/
theorem C7_json_count (s : List (Option Event)) (acc : List Event)
    (h : ∀ x ∈ s, isFatalPF x = false) :
    (processEvents s acc).countP isJsonMsg = s.countP isOkCompleted :=
  processEvents_json_count s acc h

/-- Witness for C7 (amended): one succeeded image and one `completed`
event give exactly one JSON message. -/
theorem C7_json_count_witness :
    (processEvents
        [some ⟨"image_generation.partial_succeeded", none, some "http://u", 0, none⟩,
         some ⟨"image_generation.completed", none, none, 1, some "usg"⟩] []).countP
      isJsonMsg
      = [some (⟨"image_generation.partial_succeeded", none, some "http://u", 0, none⟩ : Event),
         some ⟨"image_generation.completed", none, none, 1, some "usg"⟩].countP
          isOkCompleted :=
  C7_json_count
    [some ⟨"image_generation.partial_succeeded", none, some "http://u", 0, none⟩,
     some ⟨"image_generation.completed", none, none, 1, some "usg"⟩] [] (by decide)

/-- C8: for a request with an absent or empty image list, `_invoke`
performs no image-resolution or encoding step and calls the remote API
with `image = None`, passing prompt, model, size, max output count,
`sequential_image_generation="auto"`, streaming enabled, URL response
format and watermark disabled exactly as specified. -/
theorem C8_empty_image_request (p : ToolParams) (events : List (Option Event))
    (h : p.image = none ∨ p.image = some []) :
    invoke p events
      = ToolAction.msg (Msg.text "准备生成图片...")
        :: ToolAction.msg (Msg.text ("提示词: " ++ optStr p.prompt))
        :: ToolAction.apiCall
             { model := p.model, prompt := p.prompt, image := none, size := p.image_size,
               sequential_image_generation := "auto", max_images := p.output_image_num,
               stream := true, response_format := "url", watermark := false }
        :: ToolAction.msg (Msg.text "正在等待图片生成...")
        :: (processEvents events []).map ToolAction.msg := by
  rcases h with h | h <;> simp [invoke, genPhase, mkRequest, h]

/-- Witness for C8 at a concrete parameter record with no images. -/
theorem C8_empty_image_request_witness :
    invoke ⟨none, some "a dog", some "doubao-seedream", some "2048x2048", some 3⟩ []
      = [ToolAction.msg (Msg.text "准备生成图片..."),
         ToolAction.msg (Msg.text ("提示词: " ++ optStr (some "a dog"))),
         ToolAction.apiCall
           { model := some "doubao-seedream", prompt := some "a dog", image := none,
             size := some "2048x2048", sequential_image_generation := "auto",
             max_images := some 3, stream := true, response_format := "url",
             watermark := false },
         ToolAction.msg (Msg.text "正在等待图片生成...")] :=
  C8_empty_image_request ⟨none, some "a dog", some "doubao-seedream", some "2048x2048", some 3⟩
    [] (Or.inl rfl)

/-- C9: a `partial_image` event is recorded and yields its text notice
and an image message without any check of its error field or URL —
unlike `partial_succeeded`, which yields nothing when its error is
present or its URL is falsy. -/
theorem C9_image_event_unchecked (e e2 : Event) (rest : List (Option Event))
    (acc : List Event)
    (h : e.type = "image_generation.partial_image")
    (h2 : e2.type = "image_generation.partial_succeeded")
    (hbad : (e2.error.isNone && truthy e2.url) = false) :
    processEvents (some e :: rest) acc
      = Msg.text (noticeText e) :: Msg.image e.url :: processEvents rest (acc ++ [e])
    ∧ processEvents (some e2 :: rest) acc = processEvents rest acc := by
  constructor
  · simp [processEvents, h]
  · simp [processEvents, h2, hbad]

/-- Witness for C9: a `partial_image` event carrying an error and a
`None` URL still yields its notice and an image message with no URL,
while the analogous `partial_succeeded` event yields nothing. -/
theorem C9_image_event_unchecked_witness :
    processEvents
        [some ⟨"image_generation.partial_image", some ⟨"SomeError"⟩, none, 0, none⟩] []
      = [Msg.text (noticeText ⟨"image_generation.partial_image", some ⟨"SomeError"⟩, none, 0, none⟩),
         Msg.image none]
    ∧ processEvents
        [some ⟨"image_generation.partial_succeeded", some ⟨"SomeError"⟩, some "http://u", 0, none⟩]
        [] = [] := by
  have h := C9_image_event_unchecked
      ⟨"image_generation.partial_image", some ⟨"SomeError"⟩, none, 0, none⟩
      ⟨"image_generation.partial_succeeded", some ⟨"SomeError"⟩, some "http://u", 0, none⟩
      [] [] rfl rfl rfl
  exact h

/-- Counterexample to C10 as stated: an exception in the
filesystem-path method that is not a `TypeError`/`IOError` (here, the
`ValueError` that `open` raises on a path with an embedded NUL byte)
escapes the local handler, reaches the per-file handler, and aborts the
request — yet C10 says only a URL-download exception causes an
immediate return. -/
theorem C10_open_exception_counterexample :
    resolveFile
        ⟨none, .exn "unused", none, none, some "bad\u0000path",
         .exnOther "ValueError: embedded null byte", none, .ok []⟩
      = ([Msg.text (outerFailText "ValueError: embedded null byte")], none) := by
  rfl

/-- C10 (amended): an exception in the blob or `read()` method, and a
`TypeError`/`IOError` in the path-string or cached-path method, never
aborts the request — the code emits a failure message and behaves as if
the method were unavailable; but a non-`TypeError`/`IOError` exception
in either path method aborts via the per-file handler, a
`TypeError`/`IOError` in the last (cached-path) method leaves no bytes
and the no-data abort follows, and an exception in the URL download
returns immediately. -/
theorem C10_nonurl_exception_behavior (f : ImageFile) (e : String) :
    (truthy f.url = false → f.blob = some (.exn e) →
       resolveFile f
         = (Msg.text (blobFailText e) :: (resolveFile { f with blob := none }).1,
            (resolveFile { f with blob := none }).2))
    ∧ (truthy f.url = false → f.blob = none → f.read = some (.exn e) →
       resolveFile f
         = (Msg.text (readFailText e) :: (resolveFile { f with read := none }).1,
            (resolveFile { f with read := none }).2))
    ∧ (∀ p, truthy f.url = false → f.blob = none → f.read = none → f.strPath = some p →
       f.strOpen = .exnCaught e →
       resolveFile f
         = (Msg.text (strFailText e) :: (resolveFile { f with strPath := none }).1,
            (resolveFile { f with strPath := none }).2))
    ∧ (∀ p, truthy f.url = false → f.blob = none → f.read = none → f.strPath = some p →
       f.strOpen = .exnOther e →
       resolveFile f = ([Msg.text (outerFailText e)], none))
    ∧ (∀ p, truthy f.url = false → f.blob = none → f.read = none → f.strPath = none →
       f.path = some p → f.pathOpen = .exnCaught e →
       resolveFile f = ([Msg.text (pathFailText e), Msg.text noDataText], none))
    ∧ (∀ p, truthy f.url = false → f.blob = none → f.read = none → f.strPath = none →
       f.path = some p → f.pathOpen = .exnOther e →
       resolveFile f = ([Msg.text (outerFailText e)], none))
    ∧ (∀ u, f.url = some u → u ≠ "" → f.download = .exn e →
       resolveFile f = ([Msg.text (urlFetchText u), Msg.text (urlFailText e)], none)) := by
  refine ⟨?_, ?_, ?_, ?_, ?_, ?_, ?_⟩
  · intro hurl hb
    have h1 := resolveFile_not_url f hurl
    have h2 := resolveFile_not_url { f with blob := none } (by simpa using hurl)
    have h3 : tryRead ({ f with blob := none } : ImageFile) = tryRead f :=
      tryRead_congr _ _ (by simp) (by simp) (by simp) (by simp) (by simp)
    rw [h1, h2]
    simp [tryBlob, hb, h3]
  · intro hurl hb hrd
    have h1 := resolveFile_not_url f hurl
    have h2 := resolveFile_not_url { f with read := none } (by simpa using hurl)
    have h3 : tryStrPath ({ f with read := none } : ImageFile) = tryStrPath f :=
      tryStrPath_congr _ _ (by simp) (by simp) (by simp) (by simp)
    rw [h1, h2]
    simp [tryBlob, hb, tryRead, hrd, h3]
    have h4 : tryStrPath f
        = tryStrPath ⟨f.url, f.download, none, none, f.strPath, f.strOpen, f.path,
            f.pathOpen⟩ :=
      tryStrPath_congr _ _ (by simp) (by simp) (by simp) (by simp)
    rw [h4]
    exact ⟨rfl, rfl⟩
  · intro p hurl hb hrd hsp hso
    have h1 := resolveFile_not_url f hurl
    have h2 := resolveFile_not_url { f with strPath := none } (by simpa using hurl)
    have h3 : tryPath ({ f with strPath := none } : ImageFile) = tryPath f :=
      tryPath_congr _ _ (by simp) (by simp)
    rw [h1, h2]
    simp [tryBlob, hb, tryRead, hrd, tryStrPath, hsp, hso, h3]
    have h4 : tryPath f
        = tryPath ⟨f.url, f.download, none, none, none, OpenRes.exnCaught e, f.path,
            f.pathOpen⟩ :=
      tryPath_congr _ _ (by simp) (by simp)
    rw [h4]
    exact ⟨rfl, rfl⟩
  · intro p hurl hb hrd hsp hso
    rw [resolveFile_not_url f hurl]
    simp [tryBlob, hb, tryRead, hrd, tryStrPath, hsp, hso]
  · intro p hurl hb hrd hsp hpa hpo
    rw [resolveFile_not_url f hurl]
    simp [tryBlob, hb, tryRead, hrd, tryStrPath, hsp, tryPath, hpa, hpo]
  · intro p hurl hb hrd hsp hpa hpo
    rw [resolveFile_not_url f hurl]
    simp [tryBlob, hb, tryRead, hrd, tryStrPath, hsp, tryPath, hpa, hpo]
  · intro u hu hue hd
    simp [resolveFile, hu, hue, hd]

/-- Witness for C10 (amended): a blob exception falls through to the
`read()` method. -/
theorem C10_nonurl_exception_behavior_witness :
    resolveFile ⟨none, .exn "x", some (.exn "boom"), some (.ok [7]), none, .ok [], none, .ok []⟩
      = (Msg.text (blobFailText "boom")
          :: (resolveFile ⟨none, .exn "x", none, some (.ok [7]), none, .ok [], none, .ok []⟩).1,
         (resolveFile ⟨none, .exn "x", none, some (.ok [7]), none, .ok [], none, .ok []⟩).2) :=
  (C10_nonurl_exception_behavior
      ⟨none, .exn "x", some (.exn "boom"), some (.ok [7]), none, .ok [], none, .ok []⟩
      "boom").1 rfl rfl
